import Mathlib

/-!
Verification of the client-side real-time state synchronization layer of the
Propw grid-bot frontend: the price/trend pipeline and poll merge in the
`Layout` component, the startup-progress reducer and lifecycle error handling
in `StrategiesPage` / `StrategyDetailPage`, and the two toast sinks
(`ToastProvider` and the `Layout`-local queue).

JavaScript numbers are modelled as `Option ℚ` (with `none` standing for a
non-finite value such as `NaN` or `±Infinity`); the finite values form an
ordered field on which the comparisons performed by the code are exact, so
rationals are a faithful carrier for every property proved here.  Timestamps
(`Date.now()`) are integers.  `Number(...)` coercion of a string is an
external primitive of the JavaScript runtime; it enters the model as an
explicit parameter `toNumber : String → Option ℚ` (again `none` = non-finite),
applied after the comma-stripping the source performs.
-/

/-- A JavaScript value as far as the price pipeline inspects one:
`null`, `undefined`, a number (`none` inside = non-finite), or a string. -/
inductive JsValue where
  | null : JsValue
  | undef : JsValue
  | num : Option ℚ → JsValue
  | str : String → JsValue
deriving DecidableEq

/-- Truthiness of a `JsValue` as JavaScript evaluates it in a condition:
`null`/`undefined` are falsy, a number is truthy iff nonzero and not `NaN`,
a string is truthy iff nonempty. -/
def jsTruthy : JsValue → Bool
  | JsValue.null => false
  | JsValue.undef => false
  | JsValue.num none => false
  | JsValue.num (some q) => q ≠ 0
  | JsValue.str s => s ≠ ""

/-- `String(value).replace(/,/g, '')`: remove every comma. -/
def stripCommas (s : String) : String :=
  List.asString (s.toList.filter (fun c => c ≠ ','))

/-- `normalizePrice` from `Layout`: `null`/`undefined` map to `null`; a number
is kept iff finite; anything else is coerced with `Number` after stripping
commas and kept iff the result is finite. -/
def normalizePrice (toNumber : String → Option ℚ) : JsValue → Option ℚ
  | JsValue.null => none
  | JsValue.undef => none
  | JsValue.num x => x
  | JsValue.str s => toNumber (stripCommas s)

/-- One entry of the `priceHistory` buffer: `{ price, ts }`. -/
structure Sample where
  price : ℚ
  ts : ℤ
deriving DecidableEq

/-- The filter the source applies to the buffer: keep `p` iff
`now - p.ts <= 5000`. -/
def survives (now : ℤ) (s : Sample) : Bool :=
  now - s.ts ≤ 5000

/-- Prune the sample buffer: `buffer.filter((p) => now - p.ts <= 5000)`. -/
def pruneSamples (now : ℤ) (b : List Sample) : List Sample :=
  b.filter (survives now)

/-- The derived trend value `'up' | 'down' | 'flat'`. -/
inductive Trend where
  | up : Trend
  | down : Trend
  | flat : Trend
deriving DecidableEq

/-- A websocket frame as far as the pages inspect one: a `type` string and an
optional `data` object (`none` = absent/falsy). -/
structure MsgData where
  strategy_id : Option (Option ℤ) := none
  price : JsValue := JsValue.undef
deriving DecidableEq

/-- In `MsgData.strategy_id`, the outer `Option` distinguishes an absent
(`undefined`) field from a present one, and the inner `Option` models the JSON
value `null` versus a number. -/
structure Msg where
  type : String
  data : Option MsgData
deriving DecidableEq

/-- The `BotStatus` context object of `Layout`. -/
structure BotStatus where
  running : Bool
  logged_in : Bool
  current_price : Option ℚ
  lastMessage : Option Msg
deriving DecidableEq

/-- The slice of `Layout` component state driven by the price pipeline:
`botStatus`, `priceHistory` and `priceTrend` (`none` = the initial `null`). -/
structure LayoutState where
  botStatus : BotStatus
  priceHistory : List Sample
  priceTrend : Option Trend
deriving DecidableEq

/-- The initial `Layout` state: status all-false with `null` price and no
message, empty history, `null` trend. -/
def initLayout : LayoutState :=
  { botStatus := { running := false, logged_in := false,
                   current_price := none, lastMessage := none },
    priceHistory := [],
    priceTrend := none }

/-- `updatePrice(value)` from `Layout`: normalize; return unchanged on `null`;
otherwise set `current_price`, append the sample at `now`, prune to the 5000 ms
window, and recompute the trend against `next[0]` when it exists (the appended
sample always survives, so it always exists). -/
def updatePrice (toNumber : String → Option ℚ) (now : ℤ) (value : JsValue)
    (st : LayoutState) : LayoutState :=
  match normalizePrice toNumber value with
  | none => st
  | some price =>
    let st1 : LayoutState :=
      { st with botStatus := { st.botStatus with current_price := some price } }
    let next := pruneSamples now (st1.priceHistory ++ [{ price := price, ts := now }])
    let trend : Option Trend :=
      match next.head? with
      | some oldest =>
          some (if price > oldest.price then Trend.up
                else if price < oldest.price then Trend.down
                else Trend.flat)
      | none => st1.priceTrend
    { st1 with priceHistory := next, priceTrend := trend }

/-- The body of a successful `/bot/status` response. -/
structure SnapshotData where
  running : Bool
  logged_in : Bool
  current_price : JsValue
deriving DecidableEq

/-- The success branch of `fetchStatus`: normalize the snapshot price, fold
`running`/`logged_in` and `current_price ?? prev.current_price` into
`botStatus` (keeping `lastMessage`), then, when the price is non-null, route it
through `updatePrice`. -/
def fetchStatusOk (toNumber : String → Option ℚ) (now : ℤ) (data : SnapshotData)
    (st : LayoutState) : LayoutState :=
  let price := normalizePrice toNumber data.current_price
  let st1 : LayoutState :=
    { st with botStatus :=
        { running := data.running,
          logged_in := data.logged_in,
          current_price := match price with
                           | some p => some p
                           | none => st.botStatus.current_price,
          lastMessage := st.botStatus.lastMessage } }
  match price with
  | some p => updatePrice toNumber now (JsValue.num (some p)) st1
  | none => st1

/-- The failure branch of `fetchStatus`: the error is only logged, state is
untouched. -/
def fetchStatusErr (st : LayoutState) : LayoutState :=
  st

/-- The `ws.onmessage` handler of `Layout` on a successfully parsed frame:
store it as `lastMessage`, then, for a `price_update` with truthy `data` and
truthy `data.price`, route the price through `updatePrice`. -/
def wsMessage (toNumber : String → Option ℚ) (now : ℤ) (message : Msg)
    (st : LayoutState) : LayoutState :=
  let st1 : LayoutState :=
    { st with botStatus := { st.botStatus with lastMessage := some message } }
  match message.data with
  | some d =>
      if message.type = "price_update" ∧ jsTruthy d.price then
        updatePrice toNumber now d.price st1
      else
        st1
  | none => st1

/-- A string-coercion stub used at concrete inputs that never exercise the
string branch. -/
def toNumberNone : String → Option ℚ :=
  fun _ => none

/-!
The `StrategiesPage` startup-progress reducer, lifecycle failure handling, and
the `StrategyDetailPage` failure handling.  `showToast` calls are recorded as
an `emitted` list and `loadStrategies()` / `loadData()` calls as a `reloads`
counter, so the notification and reload behaviour of each handler is
observable in the model.
-/

/-- A `showToast` call: the `type` and `message` options. -/
structure ToastNote where
  type : String
  message : String
deriving DecidableEq

/-- The `startingProgress` state `{ current, total }`. -/
structure Progress where
  current : ℤ
  total : ℤ
deriving DecidableEq

/-- The slice of `StrategiesPage` state touched by the startup-progress effect
and by `executeAction`: the pending id (`none` = `null`), the progress pair,
plus the observable `loadStrategies` calls and emitted toasts. -/
structure StratState where
  startingStrategyId : Option ℤ
  startingProgress : Progress
  reloads : ℕ
  emitted : List ToastNote
deriving DecidableEq

/-- Initial `StrategiesPage` state: no pending start, progress `{0, 0}`. -/
def initStrat : StratState :=
  { startingStrategyId := none, startingProgress := { current := 0, total := 0 },
    reloads := 0, emitted := [] }

/-- JavaScript strict equality `data.strategy_id === startingStrategyId`,
where the left side is an optionally absent, nullable number and the right
side is `number | null`: `undefined` equals nothing, `null` equals exactly
`null`, a number equals exactly the same number. -/
def idEq : Option (Option ℤ) → Option ℤ → Bool
  | none, _ => false
  | some none, none => true
  | some none, some _ => false
  | some (some _), none => false
  | some (some n), some m => n = m

/-- The success toast emitted when a pending start completes. -/
def startedMsg : String := "策略啟動完成，所有初始訂單已掛出。"

/-- The busy (`503`) warning message of `StrategiesPage.executeAction`. -/
def busyMsg : String := "系統忙碌中，請稍後再試。"

/-- The generic failure message `'操作失敗，請稍後再試。'`. -/
def genericMsg : String := "操作失敗，請稍後再試。"

/-- The busy (`503`) warning message of `StrategyDetailPage.handleAction`. -/
def busyDetailMsg : String := "系統正在處理掛單，暫時無法停止策略，請數秒後再試一次。"

/-- The websocket-monitoring effect of `StrategiesPage`: return unchanged when
`lastMessage` is falsy; increment `startingProgress.current` on an
`order_created` frame whose truthy `data` has `strategy_id` strictly equal to
`startingStrategyId`; on a matching `strategy_started` frame clear the pending
id, reset progress to `{0, 0}`, reload the strategies and emit the success
toast. -/
def wsEffectStep (lastMessage : Option Msg) (st : StratState) : StratState :=
  match lastMessage with
  | none => st
  | some msg =>
    let st1 : StratState :=
      if msg.type = "order_created" ∧
          (match msg.data with
           | some d => idEq d.strategy_id st.startingStrategyId
           | none => false) = true then
        { st with startingProgress :=
            { st.startingProgress with current := st.startingProgress.current + 1 } }
      else st
    if msg.type = "strategy_started" ∧
        (match msg.data with
         | some d => idEq d.strategy_id st1.startingStrategyId
         | none => false) = true then
      { st1 with startingStrategyId := none,
                 startingProgress := { current := 0, total := 0 },
                 reloads := st1.reloads + 1,
                 emitted := st1.emitted ++ [{ type := "success", message := startedMsg }] }
    else st1

/-- The fields of a `Strategy` record that `handleAction` reads. -/
structure Strategy where
  id : ℤ
  grid_count : ℤ
deriving DecidableEq

/-- The `start` branch of `StrategiesPage.handleAction`: when the strategy is
found in the list, record the pending id and progress `{0, grid_count}` before
the command is sent. -/
def handleActionStart (id : ℤ) (strategies : List Strategy) (st : StratState) :
    StratState :=
  match strategies.find? (fun s => s.id = id) with
  | some strategy =>
      { st with startingStrategyId := some id,
                startingProgress := { current := 0, total := strategy.grid_count } }
  | none => st

/-- An HTTP failure as the handlers inspect it: `error.response.status` and
`error.response.data.detail`, each possibly absent. -/
structure HttpError where
  status : Option ℤ
  detail : Option String
deriving DecidableEq

/-- JavaScript `detail || '操作失敗，請稍後再試。'`: the generic message when
`detail` is absent or the empty (falsy) string. -/
def detailOr (detail : Option String) : String :=
  match detail with
  | some d => if d = "" then genericMsg else d
  | none => genericMsg

/-- The catch branch of `StrategiesPage.executeAction`: for a failed `start`
clear the pending id; emit a warning toast on a `503` status and otherwise an
error toast with `detail || generic`; finally reload the strategies. -/
def executeActionFail (action : String) (err : HttpError) (st : StratState) :
    StratState :=
  let st1 : StratState :=
    if action = "start" then { st with startingStrategyId := none } else st
  let st2 : StratState :=
    if err.status = some 503 then
      { st1 with emitted := st1.emitted ++ [{ type := "warning", message := busyMsg }] }
    else
      { st1 with emitted :=
          st1.emitted ++ [{ type := "error", message := detailOr err.detail }] }
  { st2 with reloads := st2.reloads + 1 }

/-- The observable state of `StrategyDetailPage.handleAction`: `loadData`
calls and emitted toasts. -/
structure DetailState where
  reloads : ℕ
  emitted : List ToastNote
deriving DecidableEq

/-- Initial detail-page observable state. -/
def initDetail : DetailState :=
  { reloads := 0, emitted := [] }

/-- The catch branch of `StrategyDetailPage.handleAction` (`doAction`): emit a
warning toast on a `503` status and otherwise an error toast with
`detail || generic`.  No reload is performed on failure. -/
def detailHandleActionFail (err : HttpError) (st : DetailState) : DetailState :=
  if err.status = some 503 then
    { st with emitted := st.emitted ++ [{ type := "warning", message := busyDetailMsg }] }
  else
    { st with emitted := st.emitted ++ [{ type := "error", message := detailOr err.detail }] }

/-!
The two toast sinks.  `ToastProvider` (Toast.tsx) allocates
`Date.now().toString()` as the id and schedules removal after 4000 ms; the
`Layout`-local sink allocates ids from a monotone counter and schedules
nothing.  Each `show` returns, next to the new queue, the list of scheduled
timeout actions as `(delay, id)` pairs, so the absence or presence of an
automatic expiry is part of the model.
-/

/-- A toast of the `ToastProvider` sink: string id, type, message. -/
structure PToast where
  id : String
  type : String
  message : String
deriving DecidableEq

/-- `ToastProvider.showToast`: append a toast whose id is
`Date.now().toString()` and schedule its removal after 4000 ms. -/
def pShowToast (now : ℤ) (ty msg : String) (toasts : List PToast) :
    List PToast × List (ℤ × String) :=
  (toasts ++ [{ id := toString now, type := ty, message := msg }],
   [(4000, toString now)])

/-- The body of the `setTimeout` scheduled by `ToastProvider.showToast`:
filter the queue by id. -/
def pTimeoutRemove (id : String) (toasts : List PToast) : List PToast :=
  toasts.filter (fun t => t.id ≠ id)

/-- `ToastProvider.removeToast`: filter the queue by id. -/
def pRemoveToast (id : String) (toasts : List PToast) : List PToast :=
  toasts.filter (fun t => t.id ≠ id)

/-- A toast of the `Layout`-local sink: numeric id, type, message. -/
structure LToast where
  id : ℤ
  type : String
  message : String
deriving DecidableEq

/-- `Layout.showToast`: allocate `nextToastId`, increment the counter, append
the toast.  No timeout is scheduled. -/
def layoutShowToast (ty msg : String) (toasts : List LToast) (nextToastId : ℤ) :
    (List LToast × ℤ) × List (ℤ × ℤ) :=
  ((toasts ++ [{ id := nextToastId, type := ty, message := msg }], nextToastId + 1),
   [])

/-- `Layout.removeToast`: filter the queue by id. -/
def layoutRemoveToast (id : ℤ) (toasts : List LToast) : List LToast :=
  toasts.filter (fun t => t.id ≠ id)

/-!
Concrete traces used by the claim theorems below.
-/

/-- A push `price_update` frame carrying price 100. -/
def pushMsg100 : Msg :=
  { type := "price_update", data := some { price := JsValue.num (some 100) } }

/-- A snapshot carrying the (older) polled price 50. -/
def snap50 : SnapshotData :=
  { running := true, logged_in := true, current_price := JsValue.num (some 50) }

/-- A `Layout` state whose buffer holds one sample from `t = 0` and whose
trend is `up`. -/
def stC2 : LayoutState :=
  { botStatus := { running := false, logged_in := false,
                   current_price := some 100, lastMessage := none },
    priceHistory := [{ price := 100, ts := 0 }],
    priceTrend := some Trend.up }

/-- An `order_created` frame whose payload `strategy_id` is the JSON value
`null`. -/
def nullOrderMsg : Msg :=
  { type := "order_created", data := some { strategy_id := some none } }

/-- A `strategy_started` frame whose payload `strategy_id` is the JSON value
`null`. -/
def nullStartedMsg : Msg :=
  { type := "strategy_started", data := some { strategy_id := some none } }

/-- A frame of the given type with payload `strategy_id = 7`. -/
def ev7 (ty : String) : Msg :=
  { type := ty, data := some { strategy_id := some (some 7) } }

/-- `start(7)` issued against a list holding strategy 7 with `grid_count`
10. -/
def stC4a : StratState := handleActionStart 7 [{ id := 7, grid_count := 10 }] initStrat

/-- First `order_created {strategy_id: 7}` after the start. -/
def stC4b : StratState := wsEffectStep (some (ev7 "order_created")) stC4a

/-- Second `order_created {strategy_id: 7}` after the start. -/
def stC4c : StratState := wsEffectStep (some (ev7 "order_created")) stC4b

/-- Third `order_created {strategy_id: 7}` after the start. -/
def stC4d : StratState := wsEffectStep (some (ev7 "order_created")) stC4c

/-- The `strategy_started {strategy_id: 7}` completion event. -/
def stC4e : StratState := wsEffectStep (some (ev7 "strategy_started")) stC4d

/-- Price 100 accepted at `t = 0`. -/
def stS1 : LayoutState := updatePrice toNumberNone 0 (JsValue.num (some 100)) initLayout

/-- Price 102 accepted at `t = 1000`. -/
def stS2 : LayoutState := updatePrice toNumberNone 1000 (JsValue.num (some 102)) stS1

/-- Price 99 accepted at `t = 2000`. -/
def stS3 : LayoutState := updatePrice toNumberNone 2000 (JsValue.num (some 99)) stS2

/-- A `Layout` state that has observed a non-null price. -/
def stC7 : LayoutState :=
  { botStatus := { running := true, logged_in := true,
                   current_price := some 1, lastMessage := none },
    priceHistory := [],
    priceTrend := none }

/-!
Claim theorems.
-/

/-- C9: pruning the price sample buffer (dropping samples with
`now - observedAt > 5000`) is idempotent — pruning twice at the same instant
yields the same buffer as pruning once. -/
theorem c9_prune_idempotent (now : ℤ) (b : List Sample) :
    pruneSamples now (pruneSamples now b) = pruneSamples now b := by
  simp [pruneSamples, List.filter_filter]

/-- C10: folding a successful poll snapshot into `BotStatus` leaves the
`lastMessage` field untouched (only `running`, `logged_in` and
`current_price` are written — there are no other fields), and a failed poll
changes nothing at all, so the poll path can never erase or replace the most
recent push-channel event. -/
theorem c10_poll_preserves_lastMessage (toNumber : String → Option ℚ) (now : ℤ)
    (data : SnapshotData) (st : LayoutState) :
    (fetchStatusOk toNumber now data st).botStatus.lastMessage
      = st.botStatus.lastMessage ∧
    fetchStatusErr st = st := by
  refine ⟨?_, rfl⟩
  unfold fetchStatusOk
  cases h : normalizePrice toNumber data.current_price with
  | none => simp [h]
  | some p => simp [h, updatePrice, normalizePrice]

/-- C1, counterexample: the claim says a poll snapshot carrying a price must
leave `currentPrice` unchanged when a push-derived price was accepted more
recently inside the same 5-second window.  In the code, `fetchStatus`
unconditionally routes every non-null polled price through `updatePrice`:
a push update sets the price to 100 at `t = 1000`, and a poll folding price 50
at `t = 2000` (1000 ms later, well inside the window) overwrites it with 50. -/
theorem c1_poll_overwrites_newer_push_price :
    (wsMessage toNumberNone 1000 pushMsg100 initLayout).botStatus.current_price
      = some 100 ∧
    (2000 - 1000 ≤ (5000 : ℤ)) ∧
    (fetchStatusOk toNumberNone 2000 snap50
        (wsMessage toNumberNone 1000 pushMsg100 initLayout)).botStatus.current_price
      = some 50 ∧
    (fetchStatusOk toNumberNone 2000 snap50
        (wsMessage toNumberNone 1000 pushMsg100 initLayout)).botStatus.current_price
      ≠ some 100 := by
  refine ⟨by decide, by decide, by decide, by decide⟩

/-- C1, amended: folding a successful poll snapshot whose price normalizes to
a non-null finite value always sets `currentPrice` to that polled value — the
poll path performs no recency check against push-derived prices; only a
null/non-finite snapshot price leaves `currentPrice` unchanged. -/
theorem c1_amended_poll_price_unconditional (toNumber : String → Option ℚ)
    (now : ℤ) (data : SnapshotData) (st : LayoutState) :
    (∀ p : ℚ, normalizePrice toNumber data.current_price = some p →
        (fetchStatusOk toNumber now data st).botStatus.current_price = some p) ∧
    (normalizePrice toNumber data.current_price = none →
        (fetchStatusOk toNumber now data st).botStatus.current_price
          = st.botStatus.current_price) := by
  constructor
  · intro p h
    unfold fetchStatusOk
    rw [h]
    simp [updatePrice, normalizePrice]
  · intro h
    unfold fetchStatusOk
    rw [h]

/-- C1, witness for the amended theorem at the concrete counterexample
trace. -/
theorem c1_amended_witness :
    (fetchStatusOk toNumberNone 2000 snap50
        (wsMessage toNumberNone 1000 pushMsg100 initLayout)).botStatus.current_price
      = some 50 :=
  (c1_amended_poll_price_unconditional toNumberNone 2000 snap50
      (wsMessage toNumberNone 1000 pushMsg100 initLayout)).1 50 (by decide)

/-- C2, counterexample: the claim says that when pruning leaves only the newly
appended sample, the trend keeps its previous value.  In the code the new
sample always survives its own filter, so `next[0]` is never absent: starting
from trend `up` with a single sample from `t = 0`, accepting price 102 at
`t = 6000` prunes the buffer down to just the new sample and recomputes the
trend to `flat` (102 compared against itself), not `up`. -/
theorem c2_lone_sample_trend_flickers_flat :
    stC2.priceTrend = some Trend.up ∧
    (updatePrice toNumberNone 6000 (JsValue.num (some 102)) stC2).priceHistory
      = [{ price := 102, ts := 6000 }] ∧
    (updatePrice toNumberNone 6000 (JsValue.num (some 102)) stC2).priceTrend
      = some Trend.flat ∧
    (updatePrice toNumberNone 6000 (JsValue.num (some 102)) stC2).priceTrend
      ≠ stC2.priceTrend := by
  refine ⟨by decide, by decide, by decide, by decide⟩

/-- C2, amended: when every previous sample is pruned and the buffer holds
only the newly appended sample, the trend is recomputed to `Flat` (the new
price compared against itself); it is not left at its previous value, and it
never becomes the `Unknown`/null initial state. -/
theorem c2_amended_lone_sample_flat (toNumber : String → Option ℚ) (now : ℤ)
    (p : ℚ) (st : LayoutState)
    (h : pruneSamples now st.priceHistory = []) :
    (updatePrice toNumber now (JsValue.num (some p)) st).priceHistory
      = [{ price := p, ts := now }] ∧
    (updatePrice toNumber now (JsValue.num (some p)) st).priceTrend
      = some Trend.flat := by
  have hx : survives now { price := p, ts := now } = true := by
    simp [survives]
  have hnext : pruneSamples now (st.priceHistory ++ [{ price := p, ts := now }])
      = [{ price := p, ts := now }] := by
    simp only [pruneSamples, List.filter_append] at h ⊢
    simp [h, hx]
  constructor
  · simp [updatePrice, normalizePrice, hnext]
  · simp [updatePrice, normalizePrice, hnext]

/-- C2, witness for the amended theorem at the concrete counterexample
trace. -/
theorem c2_amended_witness :
    (updatePrice toNumberNone 6000 (JsValue.num (some 102)) stC2).priceTrend
      = some Trend.flat :=
  (c2_amended_lone_sample_flat toNumberNone 6000 102 stC2 (by decide)).2

/-- C3: evaluation of the code at the failing input.  The claim (and the
spec's "stale/duplicate events are ignored" requirement) demands that an event
whose payload strategy id is `null`, arriving while no start is pending,
leaves `StartupProgress` untouched and emits nothing.  The handler compares
with JavaScript strict equality, and `null === null` holds, so with
`startingStrategyId = null` an `order_created{strategy_id: null}` event
increments `current`, and a `strategy_started{strategy_id: null}` event
reloads the list and emits the start-success notification. -/
theorem c3_null_id_event_mutates_idle_progress :
    initStrat.startingStrategyId = none ∧
    (wsEffectStep (some nullOrderMsg) initStrat).startingProgress.current
      = initStrat.startingProgress.current + 1 ∧
    (wsEffectStep (some nullStartedMsg) initStrat).emitted
      = [{ type := "success", message := startedMsg }] ∧
    (wsEffectStep (some nullStartedMsg) initStrat).reloads
      = initStrat.reloads + 1 := by
  refine ⟨rfl, by decide, by decide, by decide⟩

/-- C4: the start scenario.  `start(7)` against a strategy with `grid_count`
10 creates progress `{current: 0, total: 10}` and pending id 7; three
`order_created{strategy_id: 7}` events raise `current` monotonically through
1, 2, 3 (total stays 10); the `strategy_started{strategy_id: 7}` event clears
the pending id and the progress, performs exactly one reload, and emits
exactly one success notification. -/
theorem c4_start_scenario :
    stC4a.startingStrategyId = some 7 ∧
    stC4a.startingProgress = { current := 0, total := 10 } ∧
    stC4b.startingProgress = { current := 1, total := 10 } ∧
    stC4c.startingProgress = { current := 2, total := 10 } ∧
    stC4d.startingProgress = { current := 3, total := 10 } ∧
    stC4a.startingProgress.current ≤ stC4b.startingProgress.current ∧
    stC4b.startingProgress.current ≤ stC4c.startingProgress.current ∧
    stC4c.startingProgress.current ≤ stC4d.startingProgress.current ∧
    stC4d.emitted = [] ∧ stC4d.reloads = 0 ∧
    stC4e.startingStrategyId = none ∧
    stC4e.startingProgress = { current := 0, total := 0 } ∧
    stC4e.reloads = stC4d.reloads + 1 ∧
    stC4e.emitted = [{ type := "success", message := startedMsg }] := by
  refine ⟨by decide, by decide, by decide, by decide, by decide, by decide,
    by decide, by decide, by decide, by decide, by decide, by decide,
    by decide, by decide⟩

/-- C6, counterexample: the claim requires every failed lifecycle command to
reload canonical state.  The detail-page handler classifies a busy (`503`)
failure as a warning, but performs no reload in its catch branch (`reloads`
stays 0); only the strategies-list handler reloads on failure. -/
theorem c6_detail_failure_no_reload :
    (detailHandleActionFail { status := some 503, detail := none } initDetail).emitted
      = [{ type := "warning", message := busyDetailMsg }] ∧
    (detailHandleActionFail { status := some 503, detail := none } initDetail).reloads
      = 0 := by
  refine ⟨by decide, by decide⟩

/-- C6, amended: in both lifecycle handlers a busy-class (`503`) failure is
surfaced as a `Warning` notification and every other failure as an `Error`
notification carrying the server-supplied detail when it is a non-empty
string and the generic message otherwise; the strategies-list handler
additionally reloads canonical state on every failure, while the detail-page
handler performs no reload in its failure branch. -/
theorem c6_amended_classification (action : String) (err : HttpError)
    (st : StratState) (dst : DetailState) :
    (err.status = some 503 →
        (executeActionFail action err st).emitted
          = st.emitted ++ [{ type := "warning", message := busyMsg }] ∧
        (detailHandleActionFail err dst).emitted
          = dst.emitted ++ [{ type := "warning", message := busyDetailMsg }]) ∧
    (err.status ≠ some 503 →
        (executeActionFail action err st).emitted
          = st.emitted ++ [{ type := "error", message := detailOr err.detail }] ∧
        (detailHandleActionFail err dst).emitted
          = dst.emitted ++ [{ type := "error", message := detailOr err.detail }]) ∧
    (∀ d : String, err.detail = some d → d ≠ "" → detailOr err.detail = d) ∧
    (err.detail = none → detailOr err.detail = genericMsg) ∧
    (executeActionFail action err st).reloads = st.reloads + 1 ∧
    (detailHandleActionFail err dst).reloads = dst.reloads := by
  refine ⟨?_, ?_, ?_, ?_, ?_, ?_⟩
  · intro h
    constructor
    · by_cases ha : action = "start" <;> simp [executeActionFail, h, ha]
    · simp [detailHandleActionFail, h]
  · intro h
    constructor
    · by_cases ha : action = "start" <;> simp [executeActionFail, h, ha]
    · simp [detailHandleActionFail, h]
  · intro d hd hne
    simp [detailOr, hd, hne]
  · intro hd
    simp [detailOr, hd]
  · by_cases h : err.status = some 503 <;> by_cases ha : action = "start" <;>
      simp [executeActionFail, h, ha]
  · by_cases h : err.status = some 503 <;> simp [detailHandleActionFail, h]

/-- C6, witness for the amended theorem: a busy-class `stop` failure at the
initial states yields the warning toast plus one reload in the list handler,
and the warning toast with zero reloads in the detail handler. -/
theorem c6_amended_witness :
    (executeActionFail "stop" { status := some 503, detail := none } initStrat).emitted
      = [{ type := "warning", message := busyMsg }] ∧
    (executeActionFail "stop" { status := some 503, detail := none } initStrat).reloads
      = 1 ∧
    (detailHandleActionFail { status := some 503, detail := none } initDetail).reloads
      = 0 := by
  have h := c6_amended_classification "stop"
    { status := some 503, detail := none } initStrat initDetail
  refine ⟨?_, ?_, ?_⟩
  · have := (h.1 (by decide)).1
    simpa [initStrat] using this
  · have := h.2.2.2.2.1
    simpa [initStrat] using this
  · have := h.2.2.2.2.2
    simpa [initDetail] using this

/-- Helper: `updatePrice` never writes `null` into `current_price` — a
rejected input leaves the state unchanged, an accepted one stores a non-null
price. -/
theorem updatePrice_keeps_price (toNumber : String → Option ℚ) (now : ℤ)
    (v : JsValue) (st : LayoutState)
    (h : st.botStatus.current_price ≠ none) :
    (updatePrice toNumber now v st).botStatus.current_price ≠ none := by
  unfold updatePrice
  cases hv : normalizePrice toNumber v with
  | none => simpa using h
  | some p => simp

/-- C7: once `currentPrice` is non-null, no operation — a price update with an
arbitrary input (including null and non-finite values), a successful poll
snapshot with an arbitrary (possibly null/absent) price, a failed poll, or a
push frame — ever resets it to null. -/
theorem c7_current_price_never_regresses (toNumber : String → Option ℚ)
    (now : ℤ) (v : JsValue) (data : SnapshotData) (msg : Msg) (st : LayoutState)
    (h : st.botStatus.current_price ≠ none) :
    (updatePrice toNumber now v st).botStatus.current_price ≠ none ∧
    (fetchStatusOk toNumber now data st).botStatus.current_price ≠ none ∧
    (fetchStatusErr st).botStatus.current_price ≠ none ∧
    (wsMessage toNumber now msg st).botStatus.current_price ≠ none := by
  refine ⟨updatePrice_keeps_price toNumber now v st h, ?_, h, ?_⟩
  · unfold fetchStatusOk
    cases hp : normalizePrice toNumber data.current_price with
    | none => simpa [hp] using h
    | some p =>
      simp [updatePrice, normalizePrice]
  · unfold wsMessage
    cases hd : msg.data with
    | none => simpa using h
    | some d =>
      by_cases hc : msg.type = "price_update" ∧ jsTruthy d.price = true
      · simp only [hc, if_pos]
        exact updatePrice_keeps_price toNumber now d.price _ h
      · simpa [hc] using h

/-- C7, witness: the invariant applied at a state holding price 1, with a
`null` price-update input, a snapshot whose price field is `null`, and a
frame with no data. -/
theorem c7_witness :
    (updatePrice toNumberNone 10 JsValue.null stC7).botStatus.current_price ≠ none ∧
    (fetchStatusOk toNumberNone 10
        { running := false, logged_in := false, current_price := JsValue.null }
        stC7).botStatus.current_price ≠ none ∧
    (fetchStatusErr stC7).botStatus.current_price ≠ none ∧
    (wsMessage toNumberNone 10 { type := "price_update", data := none }
        stC7).botStatus.current_price ≠ none :=
  c7_current_price_never_regresses toNumberNone 10 JsValue.null
    { running := false, logged_in := false, current_price := JsValue.null }
    { type := "price_update", data := none } stC7 (by decide)

/-- C8, counterexample: the claim says `show` always allocates an id distinct
from all live toasts.  `ToastProvider.showToast` uses
`Date.now().toString()`, so two calls inside the same millisecond allocate
the same id: after two shows at `now = 1000` the queue holds two live toasts
both with id `"1000"`. -/
theorem c8_same_millisecond_id_collision :
    (pShowToast 1000 "success" "a" []).1
      = [{ id := "1000", type := "success", message := "a" }] ∧
    ((pShowToast 1000 "error" "b" (pShowToast 1000 "success" "a" []).1).1.map
        PToast.id = ["1000", "1000"]) ∧
    ¬ ((pShowToast 1000 "error" "b" (pShowToast 1000 "success" "a" []).1).1.map
        PToast.id).Nodup := by
  refine ⟨by decide, by decide, by decide⟩

/-- C8, amended: `ToastProvider.show` enqueues a toast whose id is the current
millisecond timestamp and schedules its removal after the fixed 4000 ms; the
id is distinct from all live toasts only when no live toast already carries
that timestamp id.  Scheduled expiry and explicit dismissal perform the same
id-filter removal, which removes every toast with that id, is idempotent, and
is a no-op when the id no longer exists.  The `Layout` sink allocates strictly
fresh counter ids (distinct from all live toasts whose ids are below the
counter) and removes by the same idempotent filter, but schedules no
automatic expiry at all. -/
theorem c8_amended_toast_sinks (now : ℤ) (ty msg rid : String)
    (pts : List PToast) (nextId : ℤ) (lts : List LToast)
    (hfresh : ∀ t ∈ pts, t.id ≠ toString now)
    (hlive : ∀ t ∈ lts, t.id < nextId) :
    (pShowToast now ty msg pts).1
      = pts ++ [{ id := toString now, type := ty, message := msg }] ∧
    (pShowToast now ty msg pts).2 = [(4000, toString now)] ∧
    toString now ∉ pts.map PToast.id ∧
    pTimeoutRemove rid pts = pRemoveToast rid pts ∧
    (∀ t ∈ pRemoveToast rid pts, t.id ≠ rid) ∧
    pRemoveToast rid (pRemoveToast rid pts) = pRemoveToast rid pts ∧
    ((∀ t ∈ pts, t.id ≠ rid) → pRemoveToast rid pts = pts) ∧
    (layoutShowToast ty msg lts nextId).1.1
      = lts ++ [{ id := nextId, type := ty, message := msg }] ∧
    (layoutShowToast ty msg lts nextId).1.2 = nextId + 1 ∧
    (layoutShowToast ty msg lts nextId).2 = [] ∧
    nextId ∉ lts.map LToast.id := by
  refine ⟨rfl, rfl, ?_, rfl, ?_, ?_, ?_, rfl, rfl, rfl, ?_⟩
  · intro hmem
    rcases List.mem_map.mp hmem with ⟨t, ht, hid⟩
    exact hfresh t ht hid
  · intro t ht
    have := List.of_mem_filter ht
    simpa using this
  · simp [pRemoveToast, List.filter_filter]
  · intro habs
    apply List.filter_eq_self.mpr
    intro t ht
    simpa using habs t ht
  · intro hmem
    rcases List.mem_map.mp hmem with ⟨t, ht, hid⟩
    exact absurd (hid ▸ hlive t ht) (lt_irrefl nextId)

/-- C8, witness for the amended theorem at concrete inputs: a show at
`now = 1000` on an empty provider queue and a show on an empty layout queue
with counter 5. -/
theorem c8_amended_witness :
    (pShowToast 1000 "success" "hi" []).1
      = [{ id := "1000", type := "success", message := "hi" }] ∧
    (pShowToast 1000 "success" "hi" []).2 = [(4000, "1000")] ∧
    (layoutShowToast "error" "oops" [] 5).2 = [] := by
  have h := c8_amended_toast_sinks 1000 "success" "hi" "x" [] 5 []
    (by intro t ht; cases ht) (by intro t ht; cases ht)
  exact ⟨by simpa using h.1, by simpa using h.2.1, h.2.2.2.2.2.2.2.2.2.1⟩

/-- C5: whenever a finite price `p` is accepted at time `now` over a
chronologically ordered buffer of past samples, the recomputed trend is `Up`
iff `p` is strictly greater than the price of the oldest sample still inside
the 5000 ms window (the witness `o`, which heads the pruned buffer and has
minimal timestamp among the survivors), `Down` iff strictly less, and `Flat`
iff equal. -/
theorem c5_trend_vs_oldest_surviving (toNumber : String → Option ℚ)
    (st : LayoutState) (now : ℤ) (p : ℚ)
    (hchron : List.Pairwise (fun a b : Sample => a.ts ≤ b.ts) st.priceHistory)
    (hpast : ∀ s ∈ st.priceHistory, s.ts ≤ now) :
    ∃ o : Sample,
      (pruneSamples now (st.priceHistory ++ [{ price := p, ts := now }])).head?
        = some o ∧
      (∀ s ∈ pruneSamples now (st.priceHistory ++ [{ price := p, ts := now }]),
        o.ts ≤ s.ts) ∧
      ((updatePrice toNumber now (JsValue.num (some p)) st).priceTrend
          = some Trend.up ↔ o.price < p) ∧
      ((updatePrice toNumber now (JsValue.num (some p)) st).priceTrend
          = some Trend.down ↔ p < o.price) ∧
      ((updatePrice toNumber now (JsValue.num (some p)) st).priceTrend
          = some Trend.flat ↔ p = o.price) := by
  have hx : survives now { price := p, ts := now } = true := by
    simp [survives]
  have hpairL : List.Pairwise (fun a b : Sample => a.ts ≤ b.ts)
      (st.priceHistory ++ [({ price := p, ts := now } : Sample)]) := by
    refine List.pairwise_append.mpr ⟨hchron, List.pairwise_singleton _ _, ?_⟩
    intro a ha b hb
    have hb' : b = { price := p, ts := now } := by simpa using hb
    subst hb'
    exact hpast a ha
  have hxmem : ({ price := p, ts := now } : Sample)
      ∈ pruneSamples now (st.priceHistory ++ [{ price := p, ts := now }]) := by
    refine List.mem_filter.mpr ⟨by simp, hx⟩
  have hpairB : List.Pairwise (fun a b : Sample => a.ts ≤ b.ts)
      (pruneSamples now (st.priceHistory ++ [{ price := p, ts := now }])) :=
    hpairL.sublist (List.filter_sublist _)
  obtain ⟨o, t, hbuf⟩ : ∃ o t,
      pruneSamples now (st.priceHistory ++ [{ price := p, ts := now }]) = o :: t := by
    cases hb : pruneSamples now (st.priceHistory ++ [{ price := p, ts := now }]) with
    | nil => rw [hb] at hxmem; cases hxmem
    | cons o t => exact ⟨o, t, rfl⟩
  have hmin : ∀ s ∈ pruneSamples now (st.priceHistory ++ [{ price := p, ts := now }]),
      o.ts ≤ s.ts := by
    rw [hbuf] at hpairB ⊢
    intro s hs
    rcases List.mem_cons.mp hs with h | h
    · subst h; exact le_refl _
    · exact (List.pairwise_cons.mp hpairB).1 s h
  have htrend : (updatePrice toNumber now (JsValue.num (some p)) st).priceTrend
      = some (if p > o.price then Trend.up
              else if p < o.price then Trend.down else Trend.flat) := by
    unfold updatePrice
    simp only [normalizePrice]
    rw [hbuf]
    simp
  refine ⟨o, by rw [hbuf]; rfl, hmin, ?_, ?_, ?_⟩
  · rcases lt_trichotomy p o.price with hlt | heq | hgt
    · rw [htrend]; simp [hlt, lt_asymm hlt]
    · rw [htrend]; simp [heq, lt_irrefl]
    · rw [htrend]; simp [hgt]
  · rcases lt_trichotomy p o.price with hlt | heq | hgt
    · rw [htrend]; simp [hlt, lt_asymm hlt]
    · rw [htrend]; simp [heq, lt_irrefl]
    · rw [htrend]; simp [hgt, lt_asymm hgt]
  · rcases lt_trichotomy p o.price with hlt | heq | hgt
    · rw [htrend]; simp [hlt, lt_asymm hlt, ne_of_lt hlt]
    · rw [htrend]; simp [heq, lt_irrefl]
    · rw [htrend]; simp [hgt, lt_asymm hgt, (ne_of_lt hgt).symm]

/-- C5, witness: the spec scenario — accepted updates 100, 102, 99 arriving
one second apart leave a chronological buffer, and the theorem applied to the
third update yields trend `Down` (99 against the oldest surviving sample,
100). -/
theorem c5_witness_scenario_down :
    List.Pairwise (fun a b : Sample => a.ts ≤ b.ts) stS2.priceHistory ∧
    stS3.priceTrend = some Trend.down := by
  refine ⟨by decide, ?_⟩
  obtain ⟨o, ho, hmin, hup, hdown, hflat⟩ :=
    c5_trend_vs_oldest_surviving toNumberNone stS2 2000 99 (by decide) (by decide)
  have ho' : o = { price := 100, ts := 0 } := by
    have hh : (pruneSamples 2000 (stS2.priceHistory ++ [{ price := 99, ts := 2000 }])).head?
        = some ({ price := 100, ts := 0 } : Sample) := by decide
    rw [hh] at ho
    exact (Option.some.inj ho).symm
  show (updatePrice toNumberNone 2000 (JsValue.num (some 99)) stS2).priceTrend
      = some Trend.down
  rw [ho'] at hdown
  exact hdown.mpr (by norm_num)
